import Mathlib

/-!
Shallow embedding of the LTA DataMall MCP server (`src/index.ts`).

The server registers two request handlers: one returning a static catalog of
seven tool descriptors, and one dispatching a call-tool request on the tool
name, issuing a single outbound HTTP GET via axios and converting the outcome
into the protocol's content envelope.

JavaScript runtime values reaching the handlers (tool arguments, upstream
response bodies) are modelled by the inductive `LTA.Json`; the JS `undefined`
value is modelled by `Option.none` wherever it can occur (absent object keys,
absent optional fields).  Numbers are modelled as integers: the handlers never
compute with them, they only pass them through.
-/

namespace LTA

/-- A JavaScript/JSON value as seen by the handlers. -/
inductive Json where
  | null
  | bool (b : Bool)
  | num (n : Int)
  | str (s : String)
  | arr (elems : List Json)
  | obj (fields : List (String × Json))
  deriving Repr

/-- Is this value the JS `null`? -/
def Json.isNull : Json → Bool
  | .null => true
  | _ => false

/-- Property access `v.K` on a JS value: defined (non-`undefined`) only for
objects that carry the key.  Access on primitives and arrays of other keys
yields `undefined`, i.e. `none`. -/
def Json.lookup : Json → String → Option Json
  | .obj fields, key => (fields.find? (fun f => f.1 == key)).map (fun f => f.2)
  | _, _ => none

/-- JS truthiness of a defined value (`undefined` is handled by `Option`). -/
def Json.truthy : Json → Bool
  | .null => false
  | .bool b => b
  | .num n => n != 0
  | .str s => s != ""
  | .arr _ => true
  | .obj _ => true

/-- JS truthiness of a possibly-`undefined` value. -/
def optTruthy : Option Json → Bool
  | none => false
  | some v => v.truthy

/-- Indentation of `n` spaces, as laid out by `JSON.stringify(v, null, 2)`. -/
def spaces (n : Nat) : String :=
  String.mk (List.replicate n ' ')

/-- String escaping performed by `JSON.stringify` (the escapes the handlers
can actually produce; LTA payload strings are plain ASCII text). -/
def jsonEscapeChar (c : Char) : String :=
  if c = '\"' then "\\\""
  else if c = '\\' then "\\\\"
  else if c = '\n' then "\\n"
  else if c = '\t' then "\\t"
  else if c = '\r' then "\\r"
  else String.singleton c

/-- A JSON string literal with its quotes. -/
def quoteString (s : String) : String :=
  "\"" ++ String.join (s.toList.map jsonEscapeChar) ++ "\""

/-- Rendering of `JSON.stringify(v, null, 2)` at current indentation `i`: pretty-printed
JSON, nested levels indented by two further spaces, empty containers printed
inline. -/
def Json.stringifyAt (i : Nat) : Json → String
  | .null => "null"
  | .bool b => if b then "true" else "false"
  | .num n => toString n
  | .str s => quoteString s
  | .arr elems =>
      if elems.isEmpty then "[]"
      else
        "[\n" ++
        String.intercalate ",\n"
          (elems.attach.map (fun e => spaces (i + 2) ++ Json.stringifyAt (i + 2) e.1)) ++
        "\n" ++ spaces i ++ "]"
  | .obj fields =>
      if fields.isEmpty then "\x7b\x7d"
      else
        "\x7b\n" ++
        String.intercalate ",\n"
          (fields.attach.map (fun f =>
            spaces (i + 2) ++ quoteString f.1.1 ++ ": " ++ Json.stringifyAt (i + 2) f.1.2)) ++
        "\n" ++ spaces i ++ "\x7d"
termination_by j => sizeOf j
decreasing_by
  · have h := List.sizeOf_lt_of_mem e.2
    simp only [Json.arr.sizeOf_spec]
    omega
  · have h := List.sizeOf_lt_of_mem f.2
    obtain ⟨⟨k, v⟩, hm⟩ := f
    simp only [Prod.mk.sizeOf_spec] at h
    simp only [Json.obj.sizeOf_spec]
    omega

/-- The call `JSON.stringify(v, null, 2)` made by every success branch. -/
def Json.stringifyPretty (v : Json) : String :=
  Json.stringifyAt 0 v

/-- JS `String(v)` / template-literal conversion of a defined value:
strings verbatim, numbers and booleans rendered, `null` rendered as "null",
arrays joined by commas (with null/undefined elements blank), plain objects
as "[object Object]". -/
def jsToString : Json → String
  | .null => "null"
  | .bool b => if b then "true" else "false"
  | .num n => toString n
  | .str s => s
  | .obj _ => "[object Object]"
  | .arr elems =>
      String.intercalate ","
        (elems.attach.map (fun e =>
          if e.1.isNull then "" else jsToString e.1))
termination_by j => sizeOf j
decreasing_by
  have h := List.sizeOf_lt_of_mem e.2
  simp only [Json.arr.sizeOf_spec]
  omega

/-! ## HTTP layer (axios collaborator, as observed by this server) -/

/-- An upstream HTTP response as axios delivers it: a status code and the
parsed JSON body (`response.data`). -/
structure HttpResponse where
  status : Nat
  data : Json
  deriving Repr

/-- The single outbound HTTP request a handler issues, after axios has
serialized its config: the default serializer drops query parameters and
headers whose value is `undefined` or `null`. -/
structure HttpRequest where
  method : String
  url : String
  queryParams : List (String × String)
  headers : List (String × String)
  deriving Repr, DecidableEq

/-- axios query-parameter serialization: `undefined` and `null` entries of the
`params` config object are dropped, the rest are rendered with JS string
conversion. -/
def serializeParams (ps : List (String × Option Json)) : List (String × String) :=
  ps.filterMap (fun p =>
    match p.2 with
    | none => none
    | some Json.null => none
    | some v => some (p.1, jsToString v))

/-- axios header serialization: headers set to `undefined` are dropped. -/
def serializeHeaders (hs : List (String × Option String)) : List (String × String) :=
  hs.filterMap (fun h =>
    match h.2 with
    | none => none
    | some v => some (h.1, v))

/-- The request built by `axios.get(url, \x7b params, headers \x7d)` as issued by
every handler: method GET, the handler's params object, and the two headers
`AccountKey: process.env.LTA_API_KEY!` and `accept: application/json`.
`env` is the value of the environment variable `LTA_API_KEY`. -/
def axiosGet (url : String) (params : List (String × Option Json))
    (env : Option String) : HttpRequest :=
  { method := "GET"
    url := url
    queryParams := serializeParams params
    headers := serializeHeaders [("AccountKey", env), ("accept", some "application/json")] }

/-- The outcome of the awaited axios call, from the handler's point of view:
the promise resolves with a 2xx response, rejects with an axios error
(non-2xx status carrying the upstream response, or a network failure carrying
no response, with `error.message` the transport text), or rejects with some
other thrown value (a non-axios defect). -/
inductive AxiosOutcome where
  | success (resp : HttpResponse)
  | axiosError (resp : Option HttpResponse) (message : String)
  | thrown (errMsg : String)
  deriving Repr

/-! ## Protocol layer result types -/

/-- One entry of a tool result's `content` array. -/
structure ContentBlock where
  type : String
  text : String
  deriving Repr, DecidableEq

/-- A call-tool return value: the `content` blocks and the optional `isError`
flag (the success branch omits the field entirely, modelled as `none`). -/
structure ToolResult where
  content : List ContentBlock
  isError : Option Bool
  deriving Repr, DecidableEq

/-- The MCP error code used by the dispatcher. -/
inductive ErrorCode where
  | methodNotFound
  deriving Repr, DecidableEq

/-- How a call-tool invocation terminates: a returned result (possibly
flagged), a thrown `McpError`, or a rethrown non-axios exception. -/
inductive CallResult where
  | result (r : ToolResult)
  | mcpError (code : ErrorCode) (message : String)
  | thrown (errMsg : String)
  deriving Repr, DecidableEq

/-- A call-tool request: `request.params.name` and
`request.params.arguments`, the latter a JS object (absent keys are absent
list entries). -/
structure CallToolRequest where
  name : String
  arguments : List (String × Json)
  deriving Repr

/-- Property read `args.K` on the arguments object (JS destructuring). -/
def jsGet (args : List (String × Json)) (key : String) : Option Json :=
  (args.find? (fun f => f.1 == key)).map (fun f => f.2)

/-! ## The seven handlers' shared success/catch logic

Every handler's `try`/`catch` is textually identical in the source; it is
factored here into `handleOutcome`. -/

/-- JS `error.response?.data?.Message ?? error.message`: the `Message` key of
the upstream body when defined and non-null, else the transport message. -/
def coalesceMessage : Option Json → String → String
  | none, fallback => fallback
  | some Json.null, fallback => fallback
  | some v, _ => jsToString v

/-- The text of a flagged error result:
`LTA API error: ${error.response?.data?.Message ?? error.message}`. -/
def ltaErrorText (resp : Option HttpResponse) (message : String) : String :=
  "LTA API error: " ++ coalesceMessage (resp.bind (fun r => r.data.lookup "Message")) message

/-- The uniform body of every handler: on a 2xx response return one text
block with the pretty-printed body; on an axios error return one text block
with the `LTA API error:` message and `isError: true`; rethrow anything
else. -/
def handleOutcome : AxiosOutcome → CallResult
  | .success resp =>
      .result { content := [{ type := "text", text := Json.stringifyPretty resp.data }]
                isError := none }
  | .axiosError resp message =>
      .result { content := [{ type := "text", text := ltaErrorText resp message }]
                isError := some true }
  | .thrown e => .thrown e

/-! ## Per-tool endpoint bindings (URL literals from the source) -/

def busArrivalUrl : String :=
  "https://datamall2.mytransport.sg/ltaodataservice/v3/BusArrival"

def stationCrowdingUrl : String :=
  "https://datamall2.mytransport.sg/ltaodataservice/PCDRealTime"

def trainAlertsUrl : String :=
  "https://datamall2.mytransport.sg/ltaodataservice/TrainServiceAlerts"

def carparkAvailabilityUrl : String :=
  "https://datamall2.mytransport.sg/ltaodataservice/CarParkAvailabilityv2"

def travelTimesUrl : String :=
  "https://datamall2.mytransport.sg/ltaodataservice/EstTravelTimes"

def trafficIncidentsUrl : String :=
  "https://datamall2.mytransport.sg/ltaodataservice/TrafficIncidents"

def stationCrowdForecastUrl : String :=
  "https://datamall2.mytransport.sg/ltaodataservice/PCDForecast"

/-- The `params` object of the bus_arrival handler:
`\x7b BusStopCode: busStopCode, ...(serviceNo && \x7b ServiceNo: serviceNo \x7d) \x7d`.
The `BusStopCode` key is always present (possibly `undefined`); the
`ServiceNo` key is present only when `serviceNo` is truthy. -/
def busArrivalParams (args : List (String × Json)) : List (String × Option Json) :=
  ("BusStopCode", jsGet args "busStopCode") ::
    (if optTruthy (jsGet args "serviceNo") then [("ServiceNo", jsGet args "serviceNo")] else [])

/-- The `params` object of the two train-line handlers:
`\x7b TrainLine: trainLine \x7d` with `trainLine` destructured (unchecked) from the
arguments. -/
def trainLineParams (args : List (String × Json)) : List (String × Option Json) :=
  [("TrainLine", jsGet args "trainLine")]

/-- The names registered in the call-tool switch, in source order. -/
def toolNames : List String :=
  ["bus_arrival", "station_crowding", "train_alerts", "carpark_availability",
   "travel_times", "traffic_incidents", "station_crowd_forecast"]

/-- The CallToolRequestSchema handler: switch on `request.params.name`; each
case issues exactly one `axios.get` and feeds the outcome through the shared
try/catch logic; the default case throws
`McpError(ErrorCode.MethodNotFound, "Unknown tool: " + name)` without issuing
any request.  The first component is the outbound request, when one is
issued; `outcome` is how the axios promise for it settles. -/
def handleCallTool (env : Option String) (req : CallToolRequest)
    (outcome : AxiosOutcome) : Option HttpRequest × CallResult :=
  if req.name = "bus_arrival" then
    (some (axiosGet busArrivalUrl (busArrivalParams req.arguments) env), handleOutcome outcome)
  else if req.name = "station_crowding" then
    (some (axiosGet stationCrowdingUrl (trainLineParams req.arguments) env),
     handleOutcome outcome)
  else if req.name = "train_alerts" then
    (some (axiosGet trainAlertsUrl [] env), handleOutcome outcome)
  else if req.name = "carpark_availability" then
    (some (axiosGet carparkAvailabilityUrl [] env), handleOutcome outcome)
  else if req.name = "travel_times" then
    (some (axiosGet travelTimesUrl [] env), handleOutcome outcome)
  else if req.name = "traffic_incidents" then
    (some (axiosGet trafficIncidentsUrl [] env), handleOutcome outcome)
  else if req.name = "station_crowd_forecast" then
    (some (axiosGet stationCrowdForecastUrl (trainLineParams req.arguments) env),
     handleOutcome outcome)
  else
    (none, .mcpError .methodNotFound ("Unknown tool: " ++ req.name))

/-! ## The static tool catalog (ListToolsRequestSchema handler) -/

/-- One property of an input schema: its JSON type, its human description,
and, when present, the enumerated allowed values. -/
structure PropertySchema where
  type : String
  description : String
  enum : Option (List String)
  deriving Repr, DecidableEq

/-- A tool's input schema: an object schema with named properties and the
list of required property names (omitted for the no-argument tools). -/
structure InputSchema where
  type : String
  properties : List (String × PropertySchema)
  required : Option (List String)
  deriving Repr, DecidableEq

/-- A tool descriptor as returned by the list-tools handler. -/
structure ToolDescriptor where
  name : String
  description : String
  inputSchema : InputSchema
  deriving Repr, DecidableEq

/-- The train-line enumeration shared by both station-crowding tools. -/
def trainLineEnum : List String :=
  ["CCL", "CEL", "CGL", "DTL", "EWL", "NEL", "NSL", "BPL", "SLRT", "PLRT", "TEL"]

/-- The ListToolsRequestSchema handler's return value: a fixed literal list
of seven descriptors, independent of environment and arguments. -/
def listTools : List ToolDescriptor :=
  [{ name := "bus_arrival"
     description := "Get real-time bus arrival information for a specific bus stop and optionally a specific service number. Returns estimated arrival times, bus locations, and crowding levels."
     inputSchema :=
       { type := "object"
         properties :=
           [("busStopCode",
             { type := "string"
               description := "The unique 5-digit bus stop code"
               enum := none }),
            ("serviceNo",
             { type := "string"
               description := "Optional bus service number to filter results"
               enum := none })]
         required := some ["busStopCode"] } },
   { name := "station_crowding"
     description := "Get real-time MRT/LRT station crowdedness level for a particular train network line. Updates every 10 minutes."
     inputSchema :=
       { type := "object"
         properties :=
           [("trainLine",
             { type := "string"
               description := "Code of train network line (CCL, CEL, CGL, DTL, EWL, NEL, NSL, BPL, SLRT, PLRT, TEL)"
               enum := some trainLineEnum })]
         required := some ["trainLine"] } },
   { name := "train_alerts"
     description := "Get real-time train service alerts including service disruptions and shuttle services. Updates when there are changes."
     inputSchema := { type := "object", properties := [], required := none } },
   { name := "carpark_availability"
     description := "Get real-time availability of parking lots for HDB, LTA, and URA carparks. Updates every minute."
     inputSchema := { type := "object", properties := [], required := none } },
   { name := "travel_times"
     description := "Get estimated travel times on expressway segments. Updates every 5 minutes."
     inputSchema := { type := "object", properties := [], required := none } },
   { name := "traffic_incidents"
     description := "Get current road incidents including accidents, roadworks, and heavy traffic. Updates every 2 minutes."
     inputSchema := { type := "object", properties := [], required := none } },
   { name := "station_crowd_forecast"
     description := "Get forecasted MRT/LRT station crowdedness levels in 30-minute intervals."
     inputSchema :=
       { type := "object"
         properties :=
           [("trainLine",
             { type := "string"
               description := "Code of train network line (CCL, CEL, CGL, DTL, EWL, NEL, NSL, BPL, SLRT, PLRT, TEL)"
               enum := some trainLineEnum })]
         required := some ["trainLine"] } }]

/-! ## Helper lemmas about the axios serialization -/

/-- Every query parameter of a serialized params object comes verbatim from a
defined, non-null entry of that object, rendered with JS string conversion. -/
theorem mem_serializeParams {ps : List (String × Option Json)} {p : String × String}
    (h : p ∈ serializeParams ps) :
    ∃ v, (p.1, some v) ∈ ps ∧ p.2 = jsToString v := by
  rw [serializeParams, List.mem_filterMap] at h
  obtain ⟨⟨ak, av⟩, ha, hfa⟩ := h
  cases av with
  | none => simp at hfa
  | some v =>
      cases v <;> simp_all <;> (subst hfa; exact ⟨_, ha, rfl⟩)

/-- Serialization of a one-entry params object: a surviving parameter carries
the entry's key and the JS rendering of its defined value. -/
theorem serializeParams_single {key akey : String} {args : List (String × Json)}
    {p : String × String}
    (h : p ∈ serializeParams [(key, jsGet args akey)]) :
    ∃ v, jsGet args akey = some v ∧ p.1 = key ∧ p.2 = jsToString v := by
  obtain ⟨v, hv, hpv⟩ := mem_serializeParams h
  simp only [List.mem_singleton, Prod.mk.injEq] at hv
  exact ⟨v, hv.2.symm, hv.1, hpv⟩

/-- Every query parameter issued by the bus_arrival handler is either the
forwarded `busStopCode` or the forwarded `serviceNo`. -/
theorem serializeParams_busArrival {args : List (String × Json)} {p : String × String}
    (h : p ∈ serializeParams (busArrivalParams args)) :
    (∃ v, jsGet args "busStopCode" = some v ∧ p.1 = "BusStopCode" ∧ p.2 = jsToString v) ∨
    (∃ v, jsGet args "serviceNo" = some v ∧ p.1 = "ServiceNo" ∧ p.2 = jsToString v) := by
  obtain ⟨v, hv, hpv⟩ := mem_serializeParams h
  rw [busArrivalParams] at hv
  rcases List.mem_cons.mp hv with heq | htail
  · left
    simp only [Prod.mk.injEq] at heq
    exact ⟨v, heq.2.symm, heq.1, hpv⟩
  · right
    by_cases hc : optTruthy (jsGet args "serviceNo")
    · rw [if_pos hc] at htail
      simp only [List.mem_singleton, Prod.mk.injEq] at htail
      exact ⟨v, htail.2.symm, htail.1, hpv⟩
    · rw [if_neg hc] at htail
      simp at htail

/-! ## Claims -/

/-- C5: the list-tools operation returns exactly 7 descriptors, in catalog
order, with pairwise-distinct names, and the `trainLine` enum of both
`station_crowding` and `station_crowd_forecast` is exactly the 11 listed
codes.  `listTools` is a closed constant — it takes no environment, argument
or configuration input — so the result is deterministic and independent of
runtime configuration by construction. -/
theorem C5_list_tools_catalog :
    listTools.length = 7 ∧
    listTools.map ToolDescriptor.name =
      ["bus_arrival", "station_crowding", "train_alerts", "carpark_availability",
       "travel_times", "traffic_incidents", "station_crowd_forecast"] ∧
    (listTools.map ToolDescriptor.name).Nodup ∧
    ((listTools.find? (fun t => t.name == "station_crowding")).bind (fun t =>
        (t.inputSchema.properties.find? (fun p => p.1 == "trainLine")).bind
          (fun p => p.2.enum))) =
      some ["CCL", "CEL", "CGL", "DTL", "EWL", "NEL", "NSL", "BPL", "SLRT", "PLRT", "TEL"] ∧
    ((listTools.find? (fun t => t.name == "station_crowd_forecast")).bind (fun t =>
        (t.inputSchema.properties.find? (fun p => p.1 == "trainLine")).bind
          (fun p => p.2.enum))) =
      some ["CCL", "CEL", "CGL", "DTL", "EWL", "NEL", "NSL", "BPL", "SLRT", "PLRT", "TEL"] :=
  ⟨rfl, rfl, by decide, rfl, rfl⟩

/-- C2: a call-tool request whose name is none of the seven registered names
reaches the default switch case: no outbound request is issued, no handler
runs, and the dispatcher throws `McpError(MethodNotFound, "Unknown tool: " +
name)`, whose message contains the unrecognized name. -/
theorem C2_unknown_tool_method_not_found (name : String) (env : Option String)
    (args : List (String × Json)) (outcome : AxiosOutcome)
    (h : name ∉ toolNames) :
    handleCallTool env ⟨name, args⟩ outcome =
      (none, .mcpError .methodNotFound ("Unknown tool: " ++ name)) ∧
    ∃ pre post, "Unknown tool: " ++ name = pre ++ (name ++ post) := by
  simp only [toolNames, List.mem_cons, List.not_mem_nil, or_false, not_or] at h
  obtain ⟨h1, h2, h3, h4, h5, h6, h7⟩ := h
  refine ⟨?_, "Unknown tool: ", "", by simp⟩
  simp [handleCallTool, h1, h2, h3, h4, h5, h6, h7]

/-- C2 witness: the tool name "not_a_tool" yields the method-not-found
exception whose message contains "not_a_tool". -/
theorem C2_witness :
    handleCallTool none ⟨"not_a_tool", []⟩ (.thrown "x") =
      (none, .mcpError .methodNotFound ("Unknown tool: " ++ "not_a_tool")) ∧
    ∃ pre post, "Unknown tool: " ++ "not_a_tool" = pre ++ ("not_a_tool" ++ post) :=
  C2_unknown_tool_method_not_found "not_a_tool" none [] (.thrown "x") (by decide)

/-- C7: every one of the seven handlers, when the upstream call succeeds,
returns a result whose content is exactly one text block holding the
pretty-printed upstream body, with no `isError` field. -/
theorem C7_success_envelope (name : String) (env : Option String)
    (args : List (String × Json)) (resp : HttpResponse)
    (h : name ∈ toolNames) :
    (handleCallTool env ⟨name, args⟩ (.success resp)).snd =
      .result { content := [{ type := "text", text := Json.stringifyPretty resp.data }]
                isError := none } := by
  simp only [toolNames, List.mem_cons, List.not_mem_nil, or_false] at h
  rcases h with rfl | rfl | rfl | rfl | rfl | rfl | rfl <;> rfl

/-- C7 witness: a concrete success for train_alerts. -/
theorem C7_witness :
    (handleCallTool (some "key") ⟨"train_alerts", []⟩
        (.success ⟨200, Json.str "ok"⟩)).snd =
      .result { content := [{ type := "text"
                              text := Json.stringifyPretty (Json.str "ok") }]
                isError := none } :=
  C7_success_envelope "train_alerts" (some "key") [] ⟨200, Json.str "ok"⟩ (by decide)

/-- C1: for every one of the seven handlers, an axios-layer failure (non-2xx
response or network failure) is returned as a flagged-error result — one text
block, `isError: true`, not a thrown exception — whose text is
`LTA API error: ` followed by the upstream body's `Message` field when that
field is present (as a string), and by the transport error's own message when
no `Message` field is available. -/
theorem C1_axios_failure_flagged (name : String) (env : Option String)
    (args : List (String × Json)) (resp : Option HttpResponse) (msg : String)
    (h : name ∈ toolNames) :
    (handleCallTool env ⟨name, args⟩ (.axiosError resp msg)).snd =
      .result { content := [{ type := "text", text := ltaErrorText resp msg }]
                isError := some true } ∧
    (∀ m, resp.bind (fun r => r.data.lookup "Message") = some (Json.str m) →
       ltaErrorText resp msg = "LTA API error: " ++ m) ∧
    (resp.bind (fun r => r.data.lookup "Message") = none →
       ltaErrorText resp msg = "LTA API error: " ++ msg) := by
  refine ⟨?_, ?_, ?_⟩
  · simp only [toolNames, List.mem_cons, List.not_mem_nil, or_false] at h
    rcases h with rfl | rfl | rfl | rfl | rfl | rfl | rfl <;> rfl
  · intro m hm
    simp [ltaErrorText, hm, coalesceMessage, jsToString]
  · intro hm
    simp [ltaErrorText, hm, coalesceMessage]

/-- C1 witness: an HTTP 401 whose body is an object with
`Message: "Invalid Account Key"` yields the flagged result with text exactly
`LTA API error: Invalid Account Key`. -/
theorem C1_witness :
    (handleCallTool (some "key")
        ⟨"bus_arrival", [("busStopCode", Json.str "83139")]⟩
        (.axiosError (some ⟨401, Json.obj [("Message", Json.str "Invalid Account Key")]⟩)
          "Request failed with status code 401")).snd =
      .result { content := [{ type := "text", text := "LTA API error: Invalid Account Key" }]
                isError := some true } := by
  have h := C1_axios_failure_flagged "bus_arrival" (some "key")
    [("busStopCode", Json.str "83139")]
    (some ⟨401, Json.obj [("Message", Json.str "Invalid Account Key")]⟩)
    "Request failed with status code 401" (by decide)
  rw [h.1, h.2.1 "Invalid Account Key" rfl]
  rfl

/-- C3: the bus_arrival handler forwards `busStopCode` as the `BusStopCode`
query parameter; with no `serviceNo` argument the request carries only
`BusStopCode`, and with a (non-empty) `serviceNo` it carries exactly
`BusStopCode` and `ServiceNo` with the supplied values. -/
theorem C3_bus_arrival_query (env : Option String) (args : List (String × Json))
    (outcome : AxiosOutcome) (b : String)
    (hb : jsGet args "busStopCode" = some (Json.str b)) :
    ∃ req, (handleCallTool env ⟨"bus_arrival", args⟩ outcome).fst = some req ∧
      (jsGet args "serviceNo" = none → req.queryParams = [("BusStopCode", b)]) ∧
      (∀ s, jsGet args "serviceNo" = some (Json.str s) → s ≠ "" →
        req.queryParams = [("BusStopCode", b), ("ServiceNo", s)]) := by
  refine ⟨_, rfl, ?_, ?_⟩
  · intro hno
    simp [axiosGet, busArrivalParams, hb, hno, optTruthy, serializeParams, jsToString]
  · intro s hs hne
    simp [axiosGet, busArrivalParams, hb, hs, optTruthy, Json.truthy, hne,
      serializeParams, jsToString]

/-- C3 witness: busStopCode "83139" with serviceNo "15". -/
theorem C3_witness :
    ∃ req, (handleCallTool (some "key")
        ⟨"bus_arrival", [("busStopCode", Json.str "83139"), ("serviceNo", Json.str "15")]⟩
        (.success ⟨200, Json.str "ok"⟩)).fst = some req ∧
      (jsGet [("busStopCode", Json.str "83139"), ("serviceNo", Json.str "15")] "serviceNo" =
          none → req.queryParams = [("BusStopCode", "83139")]) ∧
      (∀ s, jsGet [("busStopCode", Json.str "83139"), ("serviceNo", Json.str "15")]
          "serviceNo" = some (Json.str s) → s ≠ "" →
        req.queryParams = [("BusStopCode", "83139"), ("ServiceNo", s)]) :=
  C3_bus_arrival_query (some "key")
    [("busStopCode", Json.str "83139"), ("serviceNo", Json.str "15")]
    (.success ⟨200, Json.str "ok"⟩) "83139" rfl

/-- C6: each of the four no-argument tools, invoked with an empty argument
mapping, issues its GET with an empty query-parameter list and (on upstream
success) returns the normal single-text-block result. -/
theorem C6_no_arg_tools (name : String) (env : Option String)
    (args : List (String × Json)) (resp : HttpResponse)
    (h : name ∈ ["train_alerts", "carpark_availability", "travel_times",
                 "traffic_incidents"]) :
    ∃ req, (handleCallTool env ⟨name, args⟩ (.success resp)).fst = some req ∧
      req.queryParams = [] ∧
      (handleCallTool env ⟨name, args⟩ (.success resp)).snd =
        .result { content := [{ type := "text", text := Json.stringifyPretty resp.data }]
                  isError := none } := by
  simp only [List.mem_cons, List.not_mem_nil, or_false] at h
  rcases h with rfl | rfl | rfl | rfl <;> exact ⟨_, rfl, rfl, rfl⟩

/-- C6 witness: carpark_availability with an empty argument mapping. -/
theorem C6_witness :
    ∃ req, (handleCallTool (some "key") ⟨"carpark_availability", []⟩
        (.success ⟨200, Json.str "ok"⟩)).fst = some req ∧
      req.queryParams = [] ∧
      (handleCallTool (some "key") ⟨"carpark_availability", []⟩
        (.success ⟨200, Json.str "ok"⟩)).snd =
        .result { content := [{ type := "text"
                                text := Json.stringifyPretty (Json.str "ok") }]
                  isError := none } :=
  C6_no_arg_tools "carpark_availability" (some "key") [] ⟨200, Json.str "ok"⟩ (by decide)

/-- C9: for every one of the seven handlers the two error channels are
disjoint: a non-axios exception raised inside the handler propagates out as a
thrown exception (never a flagged result), and a flagged result
(`isError: true`) arises only from an axios error. -/
theorem C9_error_channels_disjoint (name : String) (env : Option String)
    (args : List (String × Json)) (outcome : AxiosOutcome)
    (h : name ∈ toolNames) :
    (∀ e, outcome = .thrown e →
       (handleCallTool env ⟨name, args⟩ outcome).snd = .thrown e) ∧
    (∀ r, (handleCallTool env ⟨name, args⟩ outcome).snd = .result r →
       r.isError = some true → ∃ resp msg, outcome = .axiosError resp msg) := by
  have hsnd : (handleCallTool env ⟨name, args⟩ outcome).snd = handleOutcome outcome := by
    simp only [toolNames, List.mem_cons, List.not_mem_nil, or_false] at h
    rcases h with rfl | rfl | rfl | rfl | rfl | rfl | rfl <;> rfl
  constructor
  · rintro e rfl
    rw [hsnd]
    rfl
  · intro r hr hflag
    rw [hsnd] at hr
    cases outcome with
    | success resp =>
        simp only [handleOutcome, CallResult.result.injEq] at hr
        rw [← hr] at hflag
        simp at hflag
    | axiosError resp msg => exact ⟨resp, msg, rfl⟩
    | thrown e => simp [handleOutcome] at hr

/-- C9 witness: a non-axios defect thrown inside the travel_times handler
propagates out unchanged. -/
theorem C9_witness :
    (∀ e, (AxiosOutcome.thrown "TypeError") = AxiosOutcome.thrown e →
       (handleCallTool (some "key") ⟨"travel_times", []⟩
         (.thrown "TypeError")).snd = .thrown e) ∧
    (∀ r, (handleCallTool (some "key") ⟨"travel_times", []⟩
         (.thrown "TypeError")).snd = .result r →
       r.isError = some true →
       ∃ resp msg, (AxiosOutcome.thrown "TypeError") = AxiosOutcome.axiosError resp msg) :=
  C9_error_channels_disjoint "travel_times" (some "key") [] (.thrown "TypeError") (by decide)

/-- C10: in the bus_arrival handler the spread
`...(serviceNo && \x7b ServiceNo: serviceNo \x7d)` guards on JS truthiness, so a
`serviceNo` argument that is present but falsy (the empty string, false, 0 or
null) is not forwarded: the outbound query is exactly what it would be with
`serviceNo` absent, and carries no `ServiceNo` parameter. -/
theorem C10_falsy_serviceNo_omitted (env : Option String) (args : List (String × Json))
    (outcome : AxiosOutcome) (v : Json)
    (hs : jsGet args "serviceNo" = some v) (hv : v.truthy = false) :
    ∃ req, (handleCallTool env ⟨"bus_arrival", args⟩ outcome).fst = some req ∧
      req.queryParams = serializeParams [("BusStopCode", jsGet args "busStopCode")] ∧
      ∀ p ∈ req.queryParams, p.1 ≠ "ServiceNo" := by
  have hqp : serializeParams (busArrivalParams args) =
      serializeParams [("BusStopCode", jsGet args "busStopCode")] := by
    simp [busArrivalParams, hs, optTruthy, hv]
  refine ⟨_, rfl, hqp, ?_⟩
  intro p hp
  rw [show (axiosGet busArrivalUrl (busArrivalParams args) env).queryParams =
      serializeParams (busArrivalParams args) from rfl, hqp] at hp
  obtain ⟨v', hv', hk, hval⟩ := serializeParams_single hp
  rw [hk]
  decide

/-- C10 witness: serviceNo supplied as the empty string is dropped. -/
theorem C10_witness :
    ∃ req, (handleCallTool (some "key")
        ⟨"bus_arrival", [("busStopCode", Json.str "83139"), ("serviceNo", Json.str "")]⟩
        (.success ⟨200, Json.str "ok"⟩)).fst = some req ∧
      req.queryParams = serializeParams
        [("BusStopCode",
          jsGet [("busStopCode", Json.str "83139"), ("serviceNo", Json.str "")]
            "busStopCode")] ∧
      ∀ p ∈ req.queryParams, p.1 ≠ "ServiceNo" :=
  C10_falsy_serviceNo_omitted (some "key")
    [("busStopCode", Json.str "83139"), ("serviceNo", Json.str "")]
    (.success ⟨200, Json.str "ok"⟩) (Json.str "") rfl rfl

/-- C4 counterexample: invoking station_crowding with the trainLine argument
omitted is NOT signaled as a caller-input error — the handler destructures
`undefined`, issues the outbound GET anyway (axios drops the undefined
`TrainLine` entry), and on upstream success returns a normal, unflagged
result. -/
theorem C4_counterexample :
    (handleCallTool (some "key") ⟨"station_crowding", []⟩
        (.success ⟨200, Json.str "ok"⟩)).fst =
      some ⟨"GET", stationCrowdingUrl, [],
            [("AccountKey", "key"), ("accept", "application/json")]⟩ ∧
    (handleCallTool (some "key") ⟨"station_crowding", []⟩
        (.success ⟨200, Json.str "ok"⟩)).snd =
      .result { content := [{ type := "text", text := "\"ok\"" }]
                isError := none } := by
  constructor
  · rfl
  · have hsnd : (handleCallTool (some "key") ⟨"station_crowding", []⟩
        (.success ⟨200, Json.str "ok"⟩)).snd =
        handleOutcome (.success ⟨200, Json.str "ok"⟩) := rfl
    rw [hsnd]
    simp only [handleOutcome, Json.stringifyPretty, Json.stringifyAt]
    rfl

/-- C4 amended: omitting the required `trainLine` argument of
station_crowding or station_crowd_forecast is not rejected as a caller-input
error; the handler forwards the undefined value, which the HTTP client's
serializer drops, so the single outbound GET is issued carrying no
`TrainLine` (indeed no) query parameter, and on upstream success a normal,
unflagged result is returned. -/
theorem C4_missing_trainline_forwarded (name : String) (env : Option String)
    (args : List (String × Json)) (resp : HttpResponse)
    (hname : name = "station_crowding" ∨ name = "station_crowd_forecast")
    (h : jsGet args "trainLine" = none) :
    ∃ req, (handleCallTool env ⟨name, args⟩ (.success resp)).fst = some req ∧
      req.queryParams = [] ∧
      (handleCallTool env ⟨name, args⟩ (.success resp)).snd =
        .result { content := [{ type := "text", text := Json.stringifyPretty resp.data }]
                  isError := none } := by
  rcases hname with rfl | rfl <;>
    exact ⟨_, rfl, by simp [axiosGet, trainLineParams, h, serializeParams], rfl⟩

/-- C4 amended witness: station_crowd_forecast invoked with an empty argument
mapping. -/
theorem C4_witness :
    ∃ req, (handleCallTool (some "key") ⟨"station_crowd_forecast", []⟩
        (.success ⟨200, Json.str "ok"⟩)).fst = some req ∧
      req.queryParams = [] ∧
      (handleCallTool (some "key") ⟨"station_crowd_forecast", []⟩
        (.success ⟨200, Json.str "ok"⟩)).snd =
        .result { content := [{ type := "text"
                                text := Json.stringifyPretty (Json.str "ok") }]
                  isError := none } :=
  C4_missing_trainline_forwarded "station_crowd_forecast" (some "key") []
    ⟨200, Json.str "ok"⟩ (Or.inr rfl) rfl

/-- C8: every outbound request any of the seven handlers issues is a GET to
that tool's fixed URL, carries exactly the headers
`AccountKey: <LTA_API_KEY>` and `accept: application/json`, and every query
parameter it carries is one of `BusStopCode`, `ServiceNo`, `TrainLine`,
holding verbatim the value supplied under the corresponding argument key. -/
theorem C8_outbound_request_shape (name : String) (env : Option String) (k : String)
    (args : List (String × Json)) (outcome : AxiosOutcome) (req : HttpRequest)
    (henv : env = some k)
    (hreq : (handleCallTool env ⟨name, args⟩ outcome).fst = some req) :
    req.method = "GET" ∧
    req.headers = [("AccountKey", k), ("accept", "application/json")] ∧
    ((name = "bus_arrival" ∧ req.url = busArrivalUrl) ∨
     (name = "station_crowding" ∧ req.url = stationCrowdingUrl) ∨
     (name = "train_alerts" ∧ req.url = trainAlertsUrl) ∨
     (name = "carpark_availability" ∧ req.url = carparkAvailabilityUrl) ∨
     (name = "travel_times" ∧ req.url = travelTimesUrl) ∨
     (name = "traffic_incidents" ∧ req.url = trafficIncidentsUrl) ∨
     (name = "station_crowd_forecast" ∧ req.url = stationCrowdForecastUrl)) ∧
    (∀ p ∈ req.queryParams,
       ∃ argKey v,
         (p.1, argKey) ∈ [("BusStopCode", "busStopCode"), ("ServiceNo", "serviceNo"),
                          ("TrainLine", "trainLine")] ∧
         jsGet args argKey = some v ∧ p.2 = jsToString v) := by
  subst henv
  rcases eq_or_ne name "bus_arrival" with rfl | h1
  · have hr : some (axiosGet busArrivalUrl (busArrivalParams args) (some k)) = some req := hreq
    obtain rfl := Option.some_inj.mp hr
    refine ⟨rfl, rfl, Or.inl ⟨rfl, rfl⟩, ?_⟩
    intro p hp
    have hp' : p ∈ serializeParams (busArrivalParams args) := hp
    rcases serializeParams_busArrival hp' with ⟨v, hv, hk, hval⟩ | ⟨v, hv, hk, hval⟩
    · exact ⟨"busStopCode", v, by simp [hk], hv, hval⟩
    · exact ⟨"serviceNo", v, by simp [hk], hv, hval⟩
  rcases eq_or_ne name "station_crowding" with rfl | h2
  · have hr : some (axiosGet stationCrowdingUrl (trainLineParams args) (some k)) = some req :=
      hreq
    obtain rfl := Option.some_inj.mp hr
    refine ⟨rfl, rfl, Or.inr (Or.inl ⟨rfl, rfl⟩), ?_⟩
    intro p hp
    have hp' : p ∈ serializeParams [("TrainLine", jsGet args "trainLine")] := hp
    obtain ⟨v, hv, hk, hval⟩ := serializeParams_single hp'
    exact ⟨"trainLine", v, by simp [hk], hv, hval⟩
  rcases eq_or_ne name "train_alerts" with rfl | h3
  · have hr : some (axiosGet trainAlertsUrl [] (some k)) = some req := hreq
    obtain rfl := Option.some_inj.mp hr
    refine ⟨rfl, rfl, Or.inr (Or.inr (Or.inl ⟨rfl, rfl⟩)), ?_⟩
    intro p hp
    exact absurd (show p ∈ ([] : List (String × String)) from hp) (List.not_mem_nil p)
  rcases eq_or_ne name "carpark_availability" with rfl | h4
  · have hr : some (axiosGet carparkAvailabilityUrl [] (some k)) = some req := hreq
    obtain rfl := Option.some_inj.mp hr
    refine ⟨rfl, rfl, Or.inr (Or.inr (Or.inr (Or.inl ⟨rfl, rfl⟩))), ?_⟩
    intro p hp
    exact absurd (show p ∈ ([] : List (String × String)) from hp) (List.not_mem_nil p)
  rcases eq_or_ne name "travel_times" with rfl | h5
  · have hr : some (axiosGet travelTimesUrl [] (some k)) = some req := hreq
    obtain rfl := Option.some_inj.mp hr
    refine ⟨rfl, rfl, Or.inr (Or.inr (Or.inr (Or.inr (Or.inl ⟨rfl, rfl⟩)))), ?_⟩
    intro p hp
    exact absurd (show p ∈ ([] : List (String × String)) from hp) (List.not_mem_nil p)
  rcases eq_or_ne name "traffic_incidents" with rfl | h6
  · have hr : some (axiosGet trafficIncidentsUrl [] (some k)) = some req := hreq
    obtain rfl := Option.some_inj.mp hr
    refine ⟨rfl, rfl, Or.inr (Or.inr (Or.inr (Or.inr (Or.inr (Or.inl ⟨rfl, rfl⟩))))), ?_⟩
    intro p hp
    exact absurd (show p ∈ ([] : List (String × String)) from hp) (List.not_mem_nil p)
  rcases eq_or_ne name "station_crowd_forecast" with rfl | h7
  · have hr : some (axiosGet stationCrowdForecastUrl (trainLineParams args) (some k)) =
        some req := hreq
    obtain rfl := Option.some_inj.mp hr
    refine ⟨rfl, rfl, Or.inr (Or.inr (Or.inr (Or.inr (Or.inr (Or.inr ⟨rfl, rfl⟩))))), ?_⟩
    intro p hp
    have hp' : p ∈ serializeParams [("TrainLine", jsGet args "trainLine")] := hp
    obtain ⟨v, hv, hk, hval⟩ := serializeParams_single hp'
    exact ⟨"trainLine", v, by simp [hk], hv, hval⟩
  · simp [handleCallTool, h1, h2, h3, h4, h5, h6, h7] at hreq

/-- C8 witness: the request issued by station_crowding with trainLine "EWL"
under key "k". -/
theorem C8_witness :
    (axiosGet stationCrowdingUrl (trainLineParams [("trainLine", Json.str "EWL")])
        (some "k")).method = "GET" ∧
    (axiosGet stationCrowdingUrl (trainLineParams [("trainLine", Json.str "EWL")])
        (some "k")).headers = [("AccountKey", "k"), ("accept", "application/json")] ∧
    (("station_crowding" = "bus_arrival" ∧
        (axiosGet stationCrowdingUrl (trainLineParams [("trainLine", Json.str "EWL")])
          (some "k")).url = busArrivalUrl) ∨
     ("station_crowding" = "station_crowding" ∧
        (axiosGet stationCrowdingUrl (trainLineParams [("trainLine", Json.str "EWL")])
          (some "k")).url = stationCrowdingUrl) ∨
     ("station_crowding" = "train_alerts" ∧
        (axiosGet stationCrowdingUrl (trainLineParams [("trainLine", Json.str "EWL")])
          (some "k")).url = trainAlertsUrl) ∨
     ("station_crowding" = "carpark_availability" ∧
        (axiosGet stationCrowdingUrl (trainLineParams [("trainLine", Json.str "EWL")])
          (some "k")).url = carparkAvailabilityUrl) ∨
     ("station_crowding" = "travel_times" ∧
        (axiosGet stationCrowdingUrl (trainLineParams [("trainLine", Json.str "EWL")])
          (some "k")).url = travelTimesUrl) ∨
     ("station_crowding" = "traffic_incidents" ∧
        (axiosGet stationCrowdingUrl (trainLineParams [("trainLine", Json.str "EWL")])
          (some "k")).url = trafficIncidentsUrl) ∨
     ("station_crowding" = "station_crowd_forecast" ∧
        (axiosGet stationCrowdingUrl (trainLineParams [("trainLine", Json.str "EWL")])
          (some "k")).url = stationCrowdForecastUrl)) ∧
    (∀ p ∈ (axiosGet stationCrowdingUrl (trainLineParams [("trainLine", Json.str "EWL")])
        (some "k")).queryParams,
       ∃ argKey v,
         (p.1, argKey) ∈ [("BusStopCode", "busStopCode"), ("ServiceNo", "serviceNo"),
                          ("TrainLine", "trainLine")] ∧
         jsGet [("trainLine", Json.str "EWL")] argKey = some v ∧ p.2 = jsToString v) :=
  C8_outbound_request_shape "station_crowding" (some "k") "k"
    [("trainLine", Json.str "EWL")] (.success ⟨200, Json.str "ok"⟩)
    (axiosGet stationCrowdingUrl (trainLineParams [("trainLine", Json.str "EWL")]) (some "k"))
    rfl rfl

end LTA
